import Mathlib

/-!
Shallow embedding of `src/main.py` (line-psych-bot): a FastAPI webhook that
verifies a LINE signature, dispatches text/image message events, calls the
Gemini generative API with a fixed prompt, post-processes the response, and
replies over the LINE reply API.  Vendor-library behaviour (signature
verification, webhook body parsing, media fetch, the generative call, reply
delivery) enters the model as oracles collected in `Env`; everything else is
translated statement-by-statement from `main.py`.
-/

namespace LinePsychBot

/-- Stand-in for a decoded PIL bitmap (`Image.open(...)` result, main.py:71).
The code never inspects the pixels, so the bitmap is opaque data. -/
structure Img where
  id : Nat
deriving DecidableEq

/-- One element of the `inputs` list passed to `model.generate_content`
(main.py:114-120): a string part or an image part. -/
inductive Input where
  | txt (s : String)
  | img (im : Img)
deriving DecidableEq

/-- Exception classes the google client can raise from `generate_content`
(`google.api_core.exceptions`, imported at main.py:10 but never matched on). -/
inductive GenError where
  | invalidArgument
  | unauthenticated
  | resourceExhausted
  | otherError
deriving DecidableEq

/-- A `generate_content` response.  `blocked` models a prompt refused by
safety filtering: in the google-generativeai SDK, accessing `.text` on such a
response raises `ValueError` (there is no text part).  `withText s` is a
response whose `.text` accessor yields `s` (possibly the empty string). -/
inductive GenResponse where
  | blocked
  | withText (s : String)
deriving DecidableEq

/-- The `.text` accessor of a response: `none` means the access raises
(safety-blocked response with no valid part), `some s` is the text. -/
def responseText : GenResponse → Option String
  | GenResponse.blocked => none
  | GenResponse.withText s => some s

/-- Externally visible side effects of handling one webhook delivery:
a `model.generate_content(inputs)` call (main.py:123) and a
`line_bot_api.reply_message` attempt (main.py:83). -/
inductive Effect where
  | apiCall (inputs : List Input)
  | lineReply (token text : String)
deriving DecidableEq

/-- An inbound LINE event as dispatched by the webhook handler:
a text message or an image message (identified by its content id). -/
inductive Event where
  | textEvent (replyToken text : String)
  | imageEvent (replyToken messageId : String)
deriving DecidableEq

/-- Oracles for the vendor libraries the module-level globals delegate to:
`handler`'s HMAC check and body parsing, `line_bot_api.get_message_content`
composed with `Image.open` (an `Except` error is a raised exception),
`model.generate_content`, and `line_bot_api.reply_message`. -/
structure Env where
  sigValid : String → String → Bool
  parse : String → Option (List Event)
  fetchImage : String → Except String Img
  api : List Input → Except GenError GenResponse
  replyDelivery : String → String → Except String Unit

/-- An HTTP POST as seen by the endpoint: header list and raw body. -/
structure Request where
  headers : List (String × String)
  body : String

/-- The HTTP response the caller of `/callback` receives. -/
structure HttpResponse where
  status : Nat
  body : String
deriving DecidableEq

/-- The fixed instruction prompt of `get_advice` (main.py:89-112). -/
def prompt_text : String :=
  "\n    你是一位高情商的心理學溝通專家。使用者會提供一段「對話文字」或「對話截圖」。\n    請從心理學角度深入分析字裡行間的動機與情緒。\n\n    【輸出格式規範 - 嚴格遵守】\n    1. 嚴格禁止 Markdown：不要使用 #, **, ---, ``` 等符號，因為 LINE 無法顯示。\n    2. LINE 友善排版：手機螢幕窄，請善用換行與空行。\n    3. 標題與重點：使用 Emoji (如 🔍, 💡, ✅) 作為標題開頭。重點可用「」或【】包起來。\n    4. 語氣：專業、溫暖、有洞察力。\n\n    【請依照以下結構回答】\n    \n    🔍 心理潛台詞分析\n    (分析對方的真實情緒、防禦機制或隱藏意圖，請使用心理學名詞如「防禦性模糊」、「正向增強」等並解釋)\n\n    ⚠️ 風險提示\n    (這段對話有沒有隱藏的地雷、誤會或情緒勒索的跡象)\n\n    💡 下一步建議\n    (具體行動建議，包含心理學策略，如鏡像效應等)\n\n    💬 推薦回覆\n    (請給我 2~3 個不同風格的回覆範例，例如：幽默版、誠懇版、高冷版)\n    "

/-- The superseded instruction prompt in the dead tail of `get_advice`
(main.py:137-147), kept to model the unreachable code. -/
def prompt_text2 : String :=
  "\n    你是一位高情商的溝通專家。使用者會提供一段「對話文字」或「對話截圖」。\n    請針對內容進行以下分析：\n\n    1. 🎯 核心分析：對方目前的真實情緒、潛台詞是什麼？\n    2. ⚠️ 風險提示：這段對話有沒有隱藏的地雷或誤會？\n    3. 💡 後續建議：我現在該怎麼做？請提供具體的行動建議。\n    4. 💬 推薦回覆：請給我 2~3 個不同風格的回覆範例（例如：幽默版、誠懇版、高冷版）。\n\n    請用溫暖、條理分明、簡短的語氣回答。\n    "

/-- Python `s.replace(a ++ b, "")` for a two-character pattern: scan left to
right, remove each non-overlapping occurrence, resume after the removed
match. -/
def strip2 (a b : Char) : List Char → List Char
  | x :: y :: rest =>
    if x = a ∧ y = b then strip2 a b rest
    else x :: strip2 a b (y :: rest)
  | l => l

/-- Python `s.replace(a ++ b ++ c, "")` for a three-character pattern, with
the same left-to-right non-overlapping semantics. -/
def strip3 (a b c : Char) : List Char → List Char
  | x :: y :: z :: rest =>
    if x = a ∧ y = b ∧ z = c then strip3 a b c rest
    else x :: strip3 a b c (y :: z :: rest)
  | l => l

/-- The markup-cleaning chain of main.py:128:
`response.text.replace("**","").replace("##","").replace("###","").replace("---","")`. -/
def cleanText (s : String) : String :=
  String.mk (strip3 '-' '-' '-' (strip3 '#' '#' '#' (strip2 '#' '#' (strip2 '*' '*' s.data))))

/-- Fallback returned when `generate_content` (or the `.text` access) raises
(main.py:135). -/
def busyMsg : String := "AI 目前忙碌中，請稍後再試。"

/-- Fallback returned when the response text is empty (main.py:131). -/
def emptyMsg : String := "分析完成，但沒有產生文字回應。"

/-- Fallback sent when fetching or decoding an image fails (main.py:79). -/
def imageFailMsg : String := "抱歉，我無法讀取這張圖片，請稍後再試。"

/-- The `inputs` list built by `get_advice` (main.py:114-120): the prompt,
then the image if present (`if image:`), then the text if non-empty
(`if text:` — Python truthiness of a string). -/
def buildInputs (text : String) (image : Option Img) : List Input :=
  let inputs : List Input := [Input.txt prompt_text]
  let inputs := match image with
    | some im => inputs ++ [Input.img im]
    | none => inputs
  if text ≠ "" then inputs ++ [Input.txt text] else inputs

/-- `get_advice` (main.py:87-135), reply string plus emitted effects.  All of
`generate_content`, the `.text` access and the cleaning sit inside the
`try`, so a raised exception from any of them lands in the single generic
`except Exception` branch, which returns `busyMsg`.  (The duplicated block
after this try/except, main.py:136-167, is unreachable; see
`get_advice_py` below.) -/
def get_adviceE (env : Env) (text : String) (image : Option Img) : String × List Effect :=
  let inputs := buildInputs text image
  match env.api inputs with
  | Except.error _ => (busyMsg, [Effect.apiCall inputs])
  | Except.ok resp =>
    match responseText resp with
    | none => (busyMsg, [Effect.apiCall inputs])
    | some s =>
      if s ≠ "" then (cleanText s, [Effect.apiCall inputs])
      else (emptyMsg, [Effect.apiCall inputs])

/-- `reply_line` (main.py:81-85): attempt the reply; a delivery failure is
caught and only logged, so the effect trace records the attempt either way
and nothing propagates. -/
def reply_line (env : Env) (token text : String) : List Effect :=
  match env.replyDelivery token text with
  | Except.ok _ => [Effect.lineReply token text]
  | Except.error _ => [Effect.lineReply token text]

/-- `handle_text_message` (main.py:53-60). -/
def handle_text_message (env : Env) (replyToken userText : String) : List Effect :=
  let (replyText, effs) := get_adviceE env userText none
  effs ++ reply_line env replyToken replyText

/-- `handle_image_message` (main.py:63-79): fetch and decode the image; on
any exception reply with `imageFailMsg`; otherwise analyse with the fixed
caption text and the decoded image. -/
def handle_image_message (env : Env) (replyToken messageId : String) : List Effect :=
  match env.fetchImage messageId with
  | Except.error _ => [Effect.lineReply replyToken imageFailMsg]
  | Except.ok im =>
    let (replyText, effs) := get_adviceE env "請分析這張對話截圖" (some im)
    effs ++ reply_line env replyToken replyText

/-- Event dispatch performed by `handler.handle` after signature
verification (the `@handler.add` registrations at main.py:53 and 63). -/
def handleEvent (env : Env) : Event → List Effect
  | Event.textEvent tok txt => handle_text_message env tok txt
  | Event.imageEvent tok mid => handle_image_message env tok mid

/-- Outcome of `handler.handle(body, signature)` (main.py:47): invalid
signature raises `InvalidSignatureError`; an unparsable body raises some
other exception; otherwise every parsed event is dispatched in order. -/
inductive HandlerError where
  | invalidSignature
  | parseFailure
deriving DecidableEq

/-- `handler.handle` as called at main.py:47. -/
def webhook_handle (env : Env) (body signature : String) : Except HandlerError (List Effect) :=
  if env.sigValid body signature then
    match env.parse body with
    | some events => Except.ok (events.map (handleEvent env)).flatten
    | none => Except.error HandlerError.parseFailure
  else Except.error HandlerError.invalidSignature

/-- The `/callback` endpoint (main.py:42-50) under FastAPI semantics: a
missing `X-Line-Signature` header makes `request.headers[...]` raise
`KeyError`, which escapes the endpoint and becomes a 500 Internal Server
Error; `InvalidSignatureError` is converted to `HTTPException(400)`; any
other uncaught exception (e.g. a parse failure inside `handler.handle`)
also becomes a 500; otherwise the endpoint returns `'OK'` (HTTP 200). -/
def callback (env : Env) (req : Request) : HttpResponse × List Effect :=
  match req.headers.lookup "X-Line-Signature" with
  | none => (⟨500, "Internal Server Error"⟩, [])
  | some signature =>
    match webhook_handle env req.body signature with
    | Except.error HandlerError.invalidSignature => (⟨400, "Invalid signature"⟩, [])
    | Except.error HandlerError.parseFailure => (⟨500, "Internal Server Error"⟩, [])
    | Except.ok effs => (⟨200, "OK"⟩, effs)

/-- Module-level state visible to `get_advice`: the configured client
oracles (never reassigned after startup) and the accumulated logger output
(the only thing the function mutates, via `logger.error`). -/
structure ModuleState where
  env : Env
  log : List String

/-- Log lines `get_advice` appends: exactly one error line when the generic
`except` branch runs (main.py:134), none otherwise. -/
def get_advice_logs (env : Env) (text : String) (image : Option Img) : List String :=
  match env.api (buildInputs text image) with
  | Except.error _ => ["❌ Gemini 分析錯誤"]
  | Except.ok resp =>
    match responseText resp with
    | none => ["❌ Gemini 分析錯誤"]
    | some _ => []

/-- `get_advice` with the module state threaded explicitly: the reply is
computed from the oracles and the arguments alone, and the only state
change is the appended log lines. -/
def get_adviceS (st : ModuleState) (text : String) (image : Option Img) :
    String × ModuleState :=
  ((get_adviceE st.env text image).1,
   ⟨st.env, st.log ++ get_advice_logs st.env text image⟩)

/-- The `inputs` list of the dead tail of `get_advice` (main.py:149-155),
identical to `buildInputs` but with the superseded prompt. -/
def buildInputs2 (text : String) (image : Option Img) : List Input :=
  let inputs : List Input := [Input.txt prompt_text2]
  let inputs := match image with
    | some im => inputs ++ [Input.img im]
    | none => inputs
  if text ≠ "" then inputs ++ [Input.txt text] else inputs

/-- The first try/except block of `get_advice` (main.py:113-135) at the
statement level: `some r` means the block executed a `return r`, `none`
would mean control falls through to the next statement. -/
def get_advice_body1 (env : Env) (text : String) (image : Option Img) :
    Option String × List Effect :=
  let inputs := buildInputs text image
  match env.api inputs with
  | Except.error _ => (some busyMsg, [Effect.apiCall inputs])
  | Except.ok resp =>
    match responseText resp with
    | none => (some busyMsg, [Effect.apiCall inputs])
    | some s =>
      if s ≠ "" then (some (cleanText s), [Effect.apiCall inputs])
      else (some emptyMsg, [Effect.apiCall inputs])

/-- The trailing duplicated block of `get_advice` (main.py:136-167): the
superseded prompt, a second `generate_content` call, and no markup
cleaning. -/
def get_advice_body2 (env : Env) (text : String) (image : Option Img) :
    Option String × List Effect :=
  let inputs := buildInputs2 text image
  match env.api inputs with
  | Except.error _ => (some busyMsg, [Effect.apiCall inputs])
  | Except.ok resp =>
    match responseText resp with
    | none => (some busyMsg, [Effect.apiCall inputs])
    | some s =>
      if s ≠ "" then (some s, [Effect.apiCall inputs])
      else (some emptyMsg, [Effect.apiCall inputs])

/-- The full body of `get_advice` as written (main.py:87-167): run the first
block; only if it falls through without returning does the trailing block
run. -/
def get_advice_py (env : Env) (text : String) (image : Option Img) :
    Option String × List Effect :=
  match get_advice_body1 env text image with
  | (some r, effs) => (some r, effs)
  | (none, effs) =>
    let (r2, effs2) := get_advice_body2 env text image
    (r2, effs ++ effs2)

/-- `get_advice` with main.py:136-167 deleted. -/
def get_advice_trunc (env : Env) (text : String) (image : Option Img) :
    Option String × List Effect :=
  get_advice_body1 env text image

/-- A list of length at most two cannot contain a three-character run. -/
lemma not_in_short {l : List Char} (h : l.length ≤ 2) :
    ¬ (['-', '-', '-'] <:+: l) := by
  rintro ⟨s, t, hst⟩
  have hl := congrArg List.length hst
  simp [List.length_append] at hl
  omega

/-- If the dash-stripped list starts with a dash, so did the original. -/
lemma strip3_dash_head {m : List Char}
    (h : (strip3 '-' '-' '-' m).head? = some '-') : m.head? = some '-' := by
  match m with
  | [] => simp [strip3] at h
  | [c] => simpa [strip3] using h
  | [c1, c2] => simpa [strip3] using h
  | x :: y :: z :: rest =>
    by_cases hm : x = '-' ∧ y = '-' ∧ z = '-'
    · simp [hm.1]
    · rw [show strip3 '-' '-' '-' (x :: y :: z :: rest)
            = x :: strip3 '-' '-' '-' (y :: z :: rest) from by
          simp only [strip3, if_neg hm]] at h
      simpa using h

/-- If `['-','-']` is a prefix of the dash-stripped list, it was already a
prefix of the original list. -/
lemma strip3_dash_pre2 {m : List Char}
    (h : ['-', '-'] <+: strip3 '-' '-' '-' m) : ['-', '-'] <+: m := by
  match m with
  | [] =>
    obtain ⟨t, ht⟩ := h
    simp [strip3] at ht
  | [c] =>
    obtain ⟨t, ht⟩ := h
    simp only [strip3, List.cons_append, List.nil_append] at ht
    simp at ht
  | [c1, c2] => simpa [strip3] using h
  | x :: y :: z :: rest =>
    by_cases hm : x = '-' ∧ y = '-' ∧ z = '-'
    · obtain ⟨hx, hy, hz⟩ := hm
      subst hx; subst hy; subst hz
      exact ⟨'-' :: rest, rfl⟩
    · rw [show strip3 '-' '-' '-' (x :: y :: z :: rest)
            = x :: strip3 '-' '-' '-' (y :: z :: rest) from by
          simp only [strip3, if_neg hm]] at h
      obtain ⟨t, ht⟩ := h
      simp only [List.cons_append, List.nil_append] at ht
      injection ht with h1 h2
      have hy : (y :: z :: rest).head? = some '-' :=
        strip3_dash_head (by rw [← h2]; rfl)
      simp only [List.head?_cons, Option.some.injEq] at hy
      subst h1; subst hy
      exact ⟨z :: rest, rfl⟩

/-- Removing every occurrence of `---` the way Python `str.replace` does
leaves a list with no occurrence of `---` at all: leftover dashes of a run
are fewer than three, and the scan never glues dashes across a removed
match. -/
theorem strip3_dash_free : (l : List Char) →
    ¬ (['-', '-', '-'] <:+: strip3 '-' '-' '-' l)
  | [] => not_in_short (by simp [strip3])
  | [c] => not_in_short (by simp [strip3])
  | [c1, c2] => not_in_short (by simp [strip3])
  | x :: y :: z :: rest => by
    by_cases hm : x = '-' ∧ y = '-' ∧ z = '-'
    · obtain ⟨hx, hy, hz⟩ := hm
      subst hx; subst hy; subst hz
      rw [show strip3 '-' '-' '-' ('-' :: '-' :: '-' :: rest)
            = strip3 '-' '-' '-' rest from by simp [strip3]]
      exact strip3_dash_free rest
    · rw [show strip3 '-' '-' '-' (x :: y :: z :: rest)
            = x :: strip3 '-' '-' '-' (y :: z :: rest) from by
          simp only [strip3, if_neg hm]]
      rintro ⟨s, t, hst⟩
      match s with
      | [] =>
        simp only [List.nil_append, List.cons_append] at hst
        injection hst with h1 h2
        have hpre : ['-', '-'] <+: y :: z :: rest :=
          strip3_dash_pre2 ⟨t, h2⟩
        obtain ⟨t2, ht2⟩ := hpre
        simp only [List.cons_append, List.nil_append] at ht2
        injection ht2 with hy2 ht3
        injection ht3 with hz2 _
        exact hm ⟨h1.symm, hy2.symm, hz2.symm⟩
      | c :: s2 =>
        simp only [List.cons_append] at hst
        injection hst with h1 h2
        exact strip3_dash_free (y :: z :: rest) ⟨s2, t, h2⟩
termination_by l => l.length

/-- A list without any dash contains no three-dash run. -/
lemma no_dash_no_seq {l : List Char} (h : '-' ∉ l) :
    ¬ (['-', '-', '-'] <:+: l) := by
  rintro ⟨s, t, hst⟩
  exact h (by rw [← hst]; simp)

/-- The effect trace of `get_advice` is always exactly one
`generate_content` call on the built inputs (main.py:123). -/
lemma get_adviceE_effects (env : Env) (text : String) (image : Option Img) :
    (get_adviceE env text image).2 = [Effect.apiCall (buildInputs text image)] := by
  rcases h : env.api (buildInputs text image) with e | resp
  · simp [get_adviceE, h]
  · rcases resp with _ | s
    · simp [get_adviceE, h, responseText]
    · by_cases hs : s = "" <;> simp [get_adviceE, h, responseText, hs]

/-- Every branch of the first try/except of `get_advice` executes a
`return`, so the statement-level body never falls through. -/
lemma get_advice_body1_returns (env : Env) (text : String) (image : Option Img) :
    ∃ r effs, get_advice_body1 env text image = (some r, effs) := by
  rcases h : env.api (buildInputs text image) with e | resp
  · exact ⟨busyMsg, [Effect.apiCall (buildInputs text image)],
      by simp [get_advice_body1, h]⟩
  · rcases resp with _ | s
    · exact ⟨busyMsg, [Effect.apiCall (buildInputs text image)],
        by simp [get_advice_body1, h, responseText]⟩
    · by_cases hs : s = ""
      · exact ⟨emptyMsg, [Effect.apiCall (buildInputs text image)],
          by simp [get_advice_body1, h, responseText, hs]⟩
      · exact ⟨cleanText s, [Effect.apiCall (buildInputs text image)],
          by simp [get_advice_body1, h, responseText, hs]⟩

/-- A stub module environment whose generative call behaves as `a`; the
remaining oracles are irrelevant to `get_advice`. -/
def stubEnv (a : List Input → Except GenError GenResponse) : Env where
  sigValid := fun _ _ => true
  parse := fun _ => some []
  fetchImage := fun _ => Except.error "ConnectionError"
  api := a
  replyDelivery := fun _ _ => Except.ok ()

/-- A module environment that rejects every signature. -/
def badSigEnv : Env where
  sigValid := fun _ _ => false
  parse := fun _ => some []
  fetchImage := fun _ => Except.error "ConnectionError"
  api := fun _ => Except.error GenError.otherError
  replyDelivery := fun _ _ => Except.ok ()

/-- A module environment in which every downstream call fails: the image
fetch raises, the generative call raises, and reply delivery raises. -/
def failingEnv : Env where
  sigValid := fun _ _ => true
  parse := fun _ => some [Event.textEvent "tok" "嗨", Event.imageEvent "tok" "mid"]
  fetchImage := fun _ => Except.error "HTTPError"
  api := fun _ => Except.error GenError.resourceExhausted
  replyDelivery := fun _ _ => Except.error "LineBotApiError"

/-- Claim C1, counterexample: the claim says each exception class maps to a
distinct fixed string, but `get_advice` has a single generic `except
Exception` branch (main.py:133-135), so an invalid-argument exception and a
resource-exhausted exception produce the same reply. -/
theorem getAdvice_error_kinds_collapse :
    (get_adviceE (stubEnv fun _ => Except.error GenError.invalidArgument) "你好" none).1
      = (get_adviceE (stubEnv fun _ => Except.error GenError.resourceExhausted) "你好" none).1 :=
  rfl

/-- Claim C1, amended: every exception raised by the generative API client
inside `get_advice`, whatever its type, yields the single fixed
generic-failure reply `busyMsg`; no per-type classification occurs. -/
theorem getAdvice_error_busyMsg (env : Env) (text : String) (image : Option Img)
    (e : GenError) (h : env.api (buildInputs text image) = Except.error e) :
    (get_adviceE env text image).1 = busyMsg := by
  simp [get_adviceE, h]

/-- Witness for `getAdvice_error_busyMsg` at a concrete stub raising an
invalid-argument exception. -/
theorem getAdvice_error_busyMsg_witness :
    (stubEnv fun _ => Except.error GenError.invalidArgument).api
        (buildInputs "你好" none) = Except.error GenError.invalidArgument ∧
    (get_adviceE (stubEnv fun _ => Except.error GenError.invalidArgument) "你好" none).1
      = busyMsg :=
  ⟨rfl, getAdvice_error_busyMsg (stubEnv fun _ => Except.error GenError.invalidArgument)
    "你好" none GenError.invalidArgument rfl⟩

/-- Claim C2, counterexample: the claim says a safety-blocked prompt yields
a fixed "sensitive content" string distinct from the client-exception
fallback, but the code never inspects the block status: accessing `.text`
on a blocked response raises, the generic `except` catches it, and the
reply coincides with the client-exception fallback. -/
theorem getAdvice_blocked_equals_error_fallback :
    (get_adviceE (stubEnv fun _ => Except.ok GenResponse.blocked) "你好" none).1
      = (get_adviceE (stubEnv fun _ => Except.error GenError.otherError) "你好" none).1 :=
  rfl

/-- Claim C2, amended: when the generative API reports the prompt as
safety-blocked, the `.text` access raises inside the `try`, so `get_advice`
returns the generic busy fallback `busyMsg` — the same string as for client
exceptions; no distinct sensitive-content fallback exists in the code. -/
theorem getAdvice_blocked_busyMsg (env : Env) (text : String) (image : Option Img)
    (h : env.api (buildInputs text image) = Except.ok GenResponse.blocked) :
    (get_adviceE env text image).1 = busyMsg := by
  simp [get_adviceE, h, responseText]

/-- Witness for `getAdvice_blocked_busyMsg` at a concrete blocked stub. -/
theorem getAdvice_blocked_busyMsg_witness :
    (stubEnv fun _ => Except.ok GenResponse.blocked).api
        (buildInputs "你好" none) = Except.ok GenResponse.blocked ∧
    (get_adviceE (stubEnv fun _ => Except.ok GenResponse.blocked) "你好" none).1
      = busyMsg :=
  ⟨rfl, getAdvice_blocked_busyMsg (stubEnv fun _ => Except.ok GenResponse.blocked)
    "你好" none rfl⟩

/-- Claim C3, counterexample: the successive `replace` calls run in the
fixed order `**`, `##`, `###`, `---`, so a later removal can both empty the
reply and manufacture earlier tokens: response text `"**"` yields the empty
reply, `"*---*"` yields `"**"`, and `"#---#---#"` yields `"###"`. -/
theorem getAdvice_markup_counterexample :
    (get_adviceE (stubEnv fun _ => Except.ok (GenResponse.withText "**")) "你好" none).1 = "" ∧
    (['*', '*'] <:+:
      (get_adviceE (stubEnv fun _ => Except.ok (GenResponse.withText "*---*")) "你好" none).1.data) ∧
    (['#', '#', '#'] <:+:
      (get_adviceE (stubEnv fun _ => Except.ok (GenResponse.withText "#---#---#")) "你好" none).1.data) :=
  ⟨by decide, ⟨[], [], by decide⟩, ⟨[], [], by decide⟩⟩

/-- Claim C3, amended: for every API behaviour and every input, the reply of
`get_advice` contains no occurrence of `---` (the `---` removal runs last
and leaves none); the reply may however be empty, and may contain `**`,
`##` or `###` newly formed when a `---` removal joins the surrounding
characters. -/
theorem getAdvice_reply_dash_free (env : Env) (text : String) (image : Option Img) :
    ¬ (['-', '-', '-'] <:+: (get_adviceE env text image).1.data) := by
  rcases h : env.api (buildInputs text image) with e | resp
  · simp only [get_adviceE, h]
    exact no_dash_no_seq (by decide)
  · rcases resp with _ | s
    · simp only [get_adviceE, h, responseText]
      exact no_dash_no_seq (by decide)
    · by_cases hs : s = ""
      · simp only [get_adviceE, h, responseText, hs]
        simp
        exact no_dash_no_seq (by decide)
      · simp only [get_adviceE, h, responseText]
        simp only [ne_eq, hs, not_false_iff, if_true]
        exact strip3_dash_free _

/-- Claim C4 (confirmed): a POST to `/callback` whose signature header is
present but fails verification gets HTTP 400 with the "Invalid signature"
detail and produces no downstream effects: no `generate_content` call and
no reply attempt. -/
theorem callback_bad_signature_400 (env : Env) (req : Request) (signature : String)
    (hs : req.headers.lookup "X-Line-Signature" = some signature)
    (hv : env.sigValid req.body signature = false) :
    callback env req = (⟨400, "Invalid signature"⟩, []) := by
  simp [callback, hs, webhook_handle, hv]

/-- Witness for `callback_bad_signature_400`: a concrete forged request
against the all-rejecting environment. -/
theorem callback_bad_signature_400_witness :
    (Request.mk [("X-Line-Signature", "forged")] "body").headers.lookup
        "X-Line-Signature" = some "forged" ∧
    badSigEnv.sigValid "body" "forged" = false ∧
    callback badSigEnv (Request.mk [("X-Line-Signature", "forged")] "body")
      = (⟨400, "Invalid signature"⟩, []) :=
  ⟨by decide, rfl,
    callback_bad_signature_400 badSigEnv
      (Request.mk [("X-Line-Signature", "forged")] "body") "forged" (by decide) rfl⟩

/-- Claim C5 (confirmed): once the signature verifies and the body parses,
`/callback` answers HTTP 200 with body "OK", whatever the downstream
oracles do (image fetch, generative call and reply delivery may all
fail). -/
theorem callback_valid_signature_200 (env : Env) (req : Request) (signature : String)
    (events : List Event)
    (hs : req.headers.lookup "X-Line-Signature" = some signature)
    (hv : env.sigValid req.body signature = true)
    (hp : env.parse req.body = some events) :
    (callback env req).1 = ⟨200, "OK"⟩ := by
  simp [callback, hs, webhook_handle, hv, hp]

/-- Witness for `callback_valid_signature_200`: in `failingEnv` the image
fetch, the generative call and the reply delivery all raise, yet the
endpoint still answers 200 "OK". -/
theorem callback_valid_signature_200_witness :
    (Request.mk [("X-Line-Signature", "good")] "body").headers.lookup
        "X-Line-Signature" = some "good" ∧
    failingEnv.sigValid "body" "good" = true ∧
    failingEnv.parse "body"
      = some [Event.textEvent "tok" "嗨", Event.imageEvent "tok" "mid"] ∧
    (callback failingEnv (Request.mk [("X-Line-Signature", "good")] "body")).1
      = ⟨200, "OK"⟩ :=
  ⟨by decide, rfl, rfl,
    callback_valid_signature_200 failingEnv
      (Request.mk [("X-Line-Signature", "good")] "body") "good"
      [Event.textEvent "tok" "嗨", Event.imageEvent "tok" "mid"]
      (by decide) rfl rfl⟩

/-- Claim C6 (confirmed): when the content fetch or bitmap decode of an
image event raises, the handler replies exactly the fixed fallback string
and never reaches `get_advice`, so no `generate_content` call occurs. -/
theorem image_failure_fallback_reply (env : Env) (replyToken messageId : String)
    (err : String) (h : env.fetchImage messageId = Except.error err) :
    handle_image_message env replyToken messageId
        = [Effect.lineReply replyToken imageFailMsg] ∧
      ∀ inputs, Effect.apiCall inputs ∉ handle_image_message env replyToken messageId := by
  refine ⟨by simp [handle_image_message, h], fun inputs => ?_⟩
  simp [handle_image_message, h]

/-- Witness for `image_failure_fallback_reply`: the failing environment's
fetch raises a concrete `HTTPError`. -/
theorem image_failure_fallback_reply_witness :
    failingEnv.fetchImage "mid" = Except.error "HTTPError" ∧
    (handle_image_message failingEnv "tok" "mid"
        = [Effect.lineReply "tok" imageFailMsg] ∧
      ∀ inputs, Effect.apiCall inputs ∉ handle_image_message failingEnv "tok" "mid") :=
  ⟨rfl, image_failure_fallback_reply failingEnv "tok" "mid" "HTTPError" rfl⟩

/-- Claim C7 (confirmed): with the module state threaded explicitly,
running `get_advice` twice on the same input against the same deterministic
oracles yields the same reply both times, and the oracle part of the state
is untouched (only the log grows). -/
theorem getAdvice_deterministic_idempotent (st : ModuleState) (text : String)
    (image : Option Img) :
    (get_adviceS ((get_adviceS st text image).2) text image).1
        = (get_adviceS st text image).1 ∧
      ((get_adviceS ((get_adviceS st text image).2) text image).2).env = st.env :=
  ⟨rfl, rfl⟩

/-- Claim C8 (confirmed): every branch of the first try/except of
`get_advice` returns, so the function as written (with the duplicated
prompt construction and second `generate_content` call of main.py:136-167)
is extensionally equal to the function with those lines deleted. -/
theorem get_advice_dead_tail_equiv (env : Env) (text : String) (image : Option Img) :
    get_advice_py env text image = get_advice_trunc env text image := by
  obtain ⟨r, effs, h⟩ := get_advice_body1_returns env text image
  simp [get_advice_py, get_advice_trunc, h]

/-- Claim C9 (confirmed): a POST without the `X-Line-Signature` header makes
`request.headers[...]` raise `KeyError` before any verification, so the
caller gets a 500-class response, not the 400 used for signature mismatch,
and nothing downstream runs. -/
theorem callback_missing_header_500 (env : Env) (req : Request)
    (h : req.headers.lookup "X-Line-Signature" = none) :
    callback env req = (⟨500, "Internal Server Error"⟩, []) ∧
      (callback env req).1.status ≠ 400 := by
  refine ⟨by simp [callback, h], ?_⟩
  simp [callback, h]

/-- Witness for `callback_missing_header_500`: a request with no headers at
all. -/
theorem callback_missing_header_500_witness :
    (Request.mk [] "body").headers.lookup "X-Line-Signature" = none ∧
    (callback failingEnv (Request.mk [] "body")
        = (⟨500, "Internal Server Error"⟩, []) ∧
      (callback failingEnv (Request.mk [] "body")).1.status ≠ 400) :=
  ⟨rfl, callback_missing_header_500 failingEnv (Request.mk [] "body") rfl⟩

/-- Claim C10 (confirmed): the model-input list is always the instruction
prompt, then the image when present, then the user text when non-empty —
in that order; in particular an empty text with no image sends the prompt
alone. -/
theorem getAdvice_inputs_order (env : Env) (text : String) (image : Option Img) :
    (get_adviceE env text image).2
      = [Effect.apiCall ([Input.txt prompt_text]
          ++ (match image with | some im => [Input.img im] | none => [])
          ++ (if text = "" then [] else [Input.txt text]))] := by
  rw [get_adviceE_effects]
  rcases image with _ | im <;> by_cases hs : text = "" <;>
    simp [buildInputs, hs]

end LinePsychBot
